import Mathlib

/-!
Verification of the track control protocol of `src/tracks/mod.rs`
(songbird). Rust code is shallowly embedded: `Duration` becomes `Nat`
(nanoseconds), `f32` becomes `Float`, `Uuid` becomes `Nat`, fallible
operations return `Except TrackError`. The submodules `mode.rs`,
`looping.rs`, `error.rs`, `handle.rs`, `command.rs` and `state.rs` are
not part of the provided sources; their definitions are modelled from
the specification (§4.1, §4.2, §6, §7) and marked as such below.
-/

namespace Songbird

/-- Modelled from the spec (§4.1): the four playback states of the
`PlayMode` enum from the absent `mode.rs`. -/
inductive PlayMode where
  | Play
  | Pause
  | Stop
  | End
  deriving DecidableEq, Repr

/-- Modelled from the spec (§4.1): the transition function
`change_to(current, requested)` of the absent `mode.rs`: `End` and
`Stop` ignore any request; `Play`/`Pause` accept any requested state. -/
def PlayMode.change_to (current requested : PlayMode) : PlayMode :=
  match current with
  | .End => .End
  | .Stop => .Stop
  | _ => requested

/-- Modelled from the spec (C10 context): the `Default` instance of
`PlayMode` from the absent `mode.rs`. -/
def PlayMode.default : PlayMode := .Play

/-- Modelled from the spec (§4.2): the `LoopState` enum of the absent
`looping.rs`: `Infinite` or `Finite(n)` with `n` an unsigned integer. -/
inductive LoopState where
  | Infinite
  | Finite (n : Nat)
  deriving DecidableEq, Repr

/-- Modelled from the spec (§7): the error kinds of the absent
`error.rs`; only `SeekUnsupported` is raised by the track itself. -/
inductive TrackError where
  | SeekUnsupported
  deriving DecidableEq, Repr

/-- Modelled from the spec (§6): the source abstraction (`Input`),
specified only at its interface boundary: `is_seekable`, `seek_time`
(seek resolution, possibly snapping), `make_playable` readiness, and a
cloneable metadata descriptor. -/
structure Input where
  seekable : Bool
  resolve : Nat → Option Nat
  metadata : Nat
  readerPlayable : Bool

def Input.is_seekable (s : Input) : Bool := s.seekable

def Input.seek_time (s : Input) (pos : Nat) : Option Nat := s.resolve pos

def Input.make_playable (s : Input) : Input := { s with readerPlayable := true }

/-- Modelled from the spec (§3): the local event registry created by
`EventStore::new_local` of the absent events module; only its presence
is observable at this interface. -/
structure EventStore where
  localOnly : Bool
  deriving DecidableEq, Repr

def EventStore.new_local : EventStore := ⟨true⟩

/-- Modelled from the spec (§3, §4.4): the absent `handle.rs`
`TrackHandle`: the uuid, the cached seek-capability flag and the
metadata reference (the queue sender is represented by the command
list fed to `Track.process_commands`). -/
structure TrackHandle where
  can_seek : Bool
  uuid : Nat
  metadata : Nat
  deriving DecidableEq, Repr

/-- Modelled from the spec (§3): `TrackHandle::new(tx, can_seek, uuid,
metadata)` of the absent `handle.rs`. -/
def TrackHandle.new (can_seek : Bool) (uuid : Nat) (metadata : Nat) : TrackHandle :=
  ⟨can_seek, uuid, metadata⟩

/-- The `Track` control object of `src/tracks/mod.rs` (the command
queue receiver is passed to `process_commands` explicitly). -/
structure Track where
  playing : PlayMode
  volume : Float
  source : Input
  position : Nat
  play_time : Nat
  events : Option EventStore
  handle : TrackHandle
  loops : LoopState
  uuid : Nat

/-- `Track::new_raw`: fresh track from a source and a handle; the uuid
is taken from the handle. -/
def Track.new_raw (source : Input) (handle : TrackHandle) : Track :=
  { playing := PlayMode.default
    volume := 1.0
    source := source
    position := 0
    play_time := 0
    events := some EventStore.new_local
    handle := handle
    loops := LoopState.Finite 0
    uuid := handle.uuid }

def Track.set_playing (t : Track) (new_state : PlayMode) : Track :=
  { t with playing := t.playing.change_to new_state }

def Track.play (t : Track) : Track := t.set_playing .Play

def Track.pause (t : Track) : Track := t.set_playing .Pause

def Track.stop (t : Track) : Track := t.set_playing .Stop

def Track.end_ (t : Track) : Track := t.set_playing .End

def Track.set_volume (t : Track) (volume : Float) : Track :=
  { t with volume := volume }

/-- `Track::set_loops`: gated on the source's seek support. -/
def Track.set_loops (t : Track) (loops : LoopState) : Track × Except TrackError Unit :=
  if t.source.is_seekable then
    ({ t with loops := loops }, .ok ())
  else
    (t, .error .SeekUnsupported)

/-- `Track::do_loop`: consume one loop; returns whether playback may
continue. -/
def Track.do_loop (t : Track) : Bool × Track :=
  match t.loops with
  | .Infinite => (true, t)
  | .Finite 0 => (false, t)
  | .Finite (n + 1) => (true, { t with loops := .Finite n })

/-- `TIMESTEP_LENGTH` from the absent `constants.rs`: the fixed audio
frame interval (20 ms, in nanoseconds). -/
def TIMESTEP_LENGTH : Nat := 20000000

/-- `Track::step_frame`: advance `position` and `play_time` by one
frame interval. -/
def Track.step_frame (t : Track) : Track :=
  { t with position := t.position + TIMESTEP_LENGTH
           play_time := t.play_time + TIMESTEP_LENGTH }

def Track.make_playable (t : Track) : Track :=
  { t with source := t.source.make_playable }

/-- Modelled from the spec (§3): the `TrackState` snapshot of the
absent `state.rs`. -/
structure TrackState where
  playing : PlayMode
  volume : Float
  position : Nat
  play_time : Nat
  loops : LoopState

/-- `Track::state`: read-only snapshot of the observable state. -/
def Track.state (t : Track) : TrackState :=
  { playing := t.playing
    volume := t.volume
    position := t.position
    play_time := t.play_time
    loops := t.loops }

/-- `Track::seek_time`: delegate to the source; on resolution the
resolved duration becomes the new position. -/
def Track.seek_time (t : Track) (pos : Nat) : Track × Except TrackError Nat :=
  match t.source.seek_time pos with
  | some d => ({ t with position := d }, .ok d)
  | none => (t, .error .SeekUnsupported)

def Track.playing_of (t : Track) : PlayMode := t.playing

/-- Modelled from the spec (§4.3, §6): an event descriptor forwarded
verbatim to the event subsystem. -/
structure EventData where
  id : Nat
  deriving DecidableEq, Repr

/-- Modelled from the spec (§4.3 command table): the `TrackCommand`
enum of the absent `command.rs`, as consumed by `process_commands`.
The one-shot reply channel of `Request` is represented by a channel
identifier. -/
inductive TrackCommand where
  | Play
  | Pause
  | Stop
  | Volume (vol : Float)
  | Seek (time : Nat)
  | AddEvent (evt : EventData)
  | Do (action : Track → Track)
  | Request (tx : Nat)
  | Loop (loops : LoopState)
  | MakePlayable

/-- Modelled from the spec (§6): the `TrackStateChange` payloads of
outward notifications to the interconnect. -/
inductive TrackStateChange where
  | Mode (m : PlayMode)
  | Volume (v : Float)
  | Position (p : Nat)
  | Total (s : TrackState)
  | Loops (l : LoopState) (explicit : Bool)

/-- Modelled from the spec (§6): messages accepted by the event
subsystem's send-only channel. -/
inductive EventMessage where
  | ChangeState (index : Nat) (change : TrackStateChange)
  | AddTrackEvent (index : Nat) (evt : EventData)

/-- Modelled from the spec (§5, §6): the observable outcome of one
drain: the mutated track, the interconnect notifications sent
(best-effort, in order), and the snapshots sent on private reply
channels. -/
structure DrainOutput where
  track : Track
  notes : List EventMessage
  replies : List (Nat × TrackState)

/-- One arm of the `match cmd` inside `Track::process_commands`
(`src/tracks/mod.rs:250-307`): apply the command to the track and
record the outward sends it performs. -/
def Track.applyCommand (t : Track) (index : Nat) (cmd : TrackCommand) :
    Track × List EventMessage × List (Nat × TrackState) :=
  match cmd with
  | .Play =>
      let t := t.play
      (t, [.ChangeState index (.Mode t.playing)], [])
  | .Pause =>
      let t := t.pause
      (t, [.ChangeState index (.Mode t.playing)], [])
  | .Stop =>
      let t := t.stop
      (t, [.ChangeState index (.Mode t.playing)], [])
  | .Volume vol =>
      let t := t.set_volume vol
      (t, [.ChangeState index (.Volume t.volume)], [])
  | .Seek time =>
      match t.seek_time time with
      | (t, .ok new_time) => (t, [.ChangeState index (.Position new_time)], [])
      | (t, .error _) => (t, [], [])
  | .AddEvent evt => (t, [.AddTrackEvent index evt], [])
  | .Do action =>
      let t := action t
      (t, [.ChangeState index (.Total t.state)], [])
  | .Request tx => (t, [], [(tx, t.state)])
  | .Loop loops =>
      match t.set_loops loops with
      | (t, .ok ()) => (t, [.ChangeState index (.Loops t.loops true)], [])
      | (t, .error _) => (t, [], [])
  | .MakePlayable => (t.make_playable, [], [])

/-- Modelled from the spec (§5): `flume::TryRecvError`, the two
non-blocking poll outcomes that end the drain loop. -/
inductive TryRecvError where
  | Empty
  | Disconnected
  deriving DecidableEq, Repr

/-- Modelled from the spec (§5): the receiver side of the command
queue as seen by a non-blocking poll: the pending commands in enqueue
order, and whether every sender has been dropped. -/
structure CommandQueue where
  pending : List TrackCommand
  disconnected : Bool

/-- Modelled from the spec (§5): `Receiver::try_recv`, the
non-blocking poll: a pending command is dequeued; an empty queue
reports `Empty`, or `Disconnected` once all senders are gone. -/
def CommandQueue.try_recv (q : CommandQueue) :
    Except TryRecvError (TrackCommand × CommandQueue) :=
  match q.pending with
  | [] => .error (if q.disconnected then .Disconnected else .Empty)
  | cmd :: rest => .ok (cmd, { q with pending := rest })

/-- The drain loop of `Track::process_commands`
(`src/tracks/mod.rs:246-317`): poll with `try_recv`; apply each
dequeued command and accumulate its sends; `Empty` and `Disconnected`
both break the loop. -/
def Track.process_commands (t : Track) (index : Nat) (q : CommandQueue) : DrainOutput :=
  match h : q.try_recv with
  | .error _ => ⟨t, [], []⟩
  | .ok (cmd, rest) =>
      let step := t.applyCommand index cmd
      let tail := step.1.process_commands index rest
      ⟨tail.track, step.2.1 ++ tail.notes, step.2.2 ++ tail.replies⟩
termination_by q.pending.length
decreasing_by
  simp only [CommandQueue.try_recv] at h
  cases hq : q.pending with
  | nil => rw [hq] at h; simp at h
  | cons a l => rw [hq] at h; simp at h; simp [hq, ← h.2]

/-- The reference drain: apply the pending commands in dequeue order,
concatenating their sends. `Track.process_commands` is proved equal to
this for every disconnection state of the queue. -/
def Track.drainAll (t : Track) (index : Nat) : List TrackCommand → DrainOutput
  | [] => ⟨t, [], []⟩
  | cmd :: rest =>
      let step := t.applyCommand index cmd
      let tail := step.1.drainAll index rest
      ⟨tail.track, step.2.1 ++ tail.notes, step.2.2 ++ tail.replies⟩

/-- A sequence of requested `PlayMode` transitions routed through
`Track::set_playing` (as `play`/`pause`/`stop`/`end` are). -/
def Track.applyTransitions (t : Track) (reqs : List PlayMode) : Track :=
  reqs.foldl Track.set_playing t

/-- Successive booleans returned by `k` consecutive `do_loop` calls. -/
def Track.loopRun : Track → Nat → List Bool
  | _, 0 => []
  | t, k + 1 =>
      let step := t.do_loop
      step.1 :: step.2.loopRun k

/-- `n` consecutive `step_frame` calls. -/
def Track.stepFrames (t : Track) : Nat → Track
  | 0 => t
  | n + 1 => t.step_frame.stepFrames n

/-- `create_player_with_uuid`: wires a fresh queue, builds the handle
from the source's seek capability, metadata and the supplied uuid,
then the track via `new_raw`. -/
def create_player_with_uuid (source : Input) (uuid : Nat) : Track × TrackHandle :=
  let can_seek := source.is_seekable
  let metadata := source.metadata
  let handle := TrackHandle.new can_seek uuid metadata
  let player := Track.new_raw source handle
  (player, handle)

/-- `create_player`: as `create_player_with_uuid` with a freshly
generated identifier; the nondeterministic `Uuid::new_v4()` is
modelled as an explicit fresh-identifier parameter. -/
def create_player (freshUuid : Nat) (source : Input) : Track × TrackHandle :=
  create_player_with_uuid source freshUuid

/-- A concrete seekable source used by witnesses. -/
def sampleInput : Input :=
  { seekable := true, resolve := fun p => some p, metadata := 0, readerPlayable := true }

/-- A concrete non-seekable source used by witnesses. -/
def sampleInputNoSeek : Input :=
  { seekable := false, resolve := fun _ => none, metadata := 0, readerPlayable := true }

/-- A concrete handle used by witnesses. -/
def sampleHandle : TrackHandle := ⟨true, 7, 0⟩

/-- A concrete track over the seekable source. -/
def sampleTrack : Track := Track.new_raw sampleInput sampleHandle

/-- A concrete track over the non-seekable source. -/
def sampleTrackNoSeek : Track := Track.new_raw sampleInputNoSeek sampleHandle

theorem PlayMode.change_to_absorbed (p r : PlayMode)
    (h : p = .End ∨ p = .Stop) : p.change_to r = p := by
  rcases h with h | h <;> subst h <;> rfl

theorem Track.set_playing_playing (t : Track) (r : PlayMode) :
    (t.set_playing r).playing = t.playing.change_to r := rfl

/-- C1: once the `PlayMode` has reached `End` or `Stop`, every further
requested transition routed through `set_playing` (so every
`play`/`pause`/`stop` call) leaves the `PlayMode` unchanged. -/
theorem end_stop_absorbing (t : Track) (reqs : List PlayMode)
    (h : t.playing = .End ∨ t.playing = .Stop) :
    (t.applyTransitions reqs).playing = t.playing := by
  induction reqs generalizing t with
  | nil => rfl
  | cons r rest ih =>
      have hstep : (t.set_playing r).playing = t.playing :=
        PlayMode.change_to_absorbed t.playing r h
      have : (t.set_playing r).applyTransitions rest = t.applyTransitions (r :: rest) := rfl
      rw [← this, ih (t.set_playing r) (by rw [hstep]; exact h), hstep]

/-- C1 witness: a stopped sample track ignores a concrete
Play/Pause/Play/Stop request burst. -/
theorem end_stop_absorbing_witness :
    ((sampleTrack.stop).applyTransitions [.Play, .Pause, .Play, .Stop]).playing
      = (sampleTrack.stop).playing :=
  end_stop_absorbing sampleTrack.stop [.Play, .Pause, .Play, .Stop] (Or.inr rfl)

theorem PlayMode.change_to_idem (p r : PlayMode) :
    (p.change_to r).change_to r = p.change_to r := by
  cases p <;> cases r <;> rfl

/-- C8: `play`, `pause` and `stop` are total functions into `Track`
(no error component in their result) and each is idempotent on the
whole track state. -/
theorem play_pause_stop_idempotent (t : Track) :
    t.play.play = t.play ∧ t.pause.pause = t.pause ∧ t.stop.stop = t.stop := by
  refine ⟨?_, ?_, ?_⟩ <;>
    simp [Track.play, Track.pause, Track.stop, Track.set_playing,
      PlayMode.change_to_idem]

/-- C2: `do_loop` permits continuation and keeps the state on
`Infinite`; denies and keeps the state on `Finite 0`; decrements and
permits on `Finite (n+1)`; and from `Finite 3` four consecutive calls
permit exactly three times, then deny. -/
theorem do_loop_spec (t : Track) :
    (t.loops = .Infinite → t.do_loop = (true, t)) ∧
    (t.loops = .Finite 0 → t.do_loop = (false, t)) ∧
    (∀ n : Nat, t.loops = .Finite (n + 1) →
      t.do_loop = (true, { t with loops := .Finite n })) ∧
    (t.loops = .Finite 3 → t.loopRun 4 = [true, true, true, false]) := by
  refine ⟨?_, ?_, ?_, ?_⟩
  · intro h; simp [Track.do_loop, h]
  · intro h; simp [Track.do_loop, h]
  · intro n h; simp [Track.do_loop, h]
  · intro h
    simp [Track.loopRun, Track.do_loop, h]

/-- C2 witness: the four cases evaluated on concrete tracks. -/
theorem do_loop_spec_witness :
    ({ sampleTrack with loops := .Infinite }.do_loop
        = (true, { sampleTrack with loops := .Infinite })) ∧
    (sampleTrack.do_loop = (false, sampleTrack)) ∧
    ({ sampleTrack with loops := .Finite 5 }.do_loop
        = (true, { sampleTrack with loops := .Finite 4 })) ∧
    ({ sampleTrack with loops := .Finite 3 }.loopRun 4
        = [true, true, true, false]) :=
  ⟨(do_loop_spec _).1 rfl,
   (do_loop_spec sampleTrack).2.1 rfl,
   (do_loop_spec _).2.2.1 4 rfl,
   (do_loop_spec _).2.2.2 rfl⟩

/-- C3: on a non-seekable source `set_loops` fails with
`SeekUnsupported` and returns the track entirely unchanged; on a
seekable source it overwrites only the loop state and succeeds. -/
theorem set_loops_spec (t : Track) (l : LoopState) :
    (t.source.is_seekable = false →
      t.set_loops l = (t, .error .SeekUnsupported)) ∧
    (t.source.is_seekable = true →
      t.set_loops l = ({ t with loops := l }, .ok ())) := by
  constructor
  · intro h; simp [Track.set_loops, h]
  · intro h; simp [Track.set_loops, h]

/-- C3 witness: both gates evaluated on concrete tracks. -/
theorem set_loops_spec_witness :
    (sampleTrackNoSeek.set_loops .Infinite
        = (sampleTrackNoSeek, .error .SeekUnsupported)) ∧
    (sampleTrack.set_loops (.Finite 2)
        = ({ sampleTrack with loops := .Finite 2 }, .ok ())) :=
  ⟨(set_loops_spec sampleTrackNoSeek .Infinite).1 rfl,
   (set_loops_spec sampleTrack (.Finite 2)).2 rfl⟩

/-- C4: when the source resolves the requested position to `d`,
`seek_time` sets `position := d` and returns `Ok d`; when the source
returns no resolvable position it fails with `SeekUnsupported` and the
track (its `position` included) is unchanged. -/
theorem seek_time_spec (t : Track) (pos : Nat) :
    (∀ d : Nat, t.source.seek_time pos = some d →
      t.seek_time pos = ({ t with position := d }, .ok d)) ∧
    (t.source.seek_time pos = none →
      t.seek_time pos = (t, .error .SeekUnsupported)) := by
  constructor
  · intro d h; simp [Track.seek_time, h]
  · intro h; simp [Track.seek_time, h]

/-- C4 witness: both outcomes evaluated on concrete tracks. -/
theorem seek_time_spec_witness :
    (sampleTrack.seek_time 44 = ({ sampleTrack with position := 44 }, .ok 44)) ∧
    (sampleTrackNoSeek.seek_time 44
        = (sampleTrackNoSeek, .error .SeekUnsupported)) :=
  ⟨(seek_time_spec sampleTrack 44).1 44 rfl,
   (seek_time_spec sampleTrackNoSeek 44).2 rfl⟩

/-- C5: `n` `step_frame` calls advance `position` and `play_time` by
exactly `n * TIMESTEP_LENGTH`, and no track operation ever decreases
or resets `play_time` — in particular `seek_time` rewrites `position`
only, never `play_time`. -/
theorem step_frame_play_time_spec (t : Track) (n : Nat) (pos : Nat) (l : LoopState) :
    (t.stepFrames n).position = t.position + n * TIMESTEP_LENGTH ∧
    (t.stepFrames n).play_time = t.play_time + n * TIMESTEP_LENGTH ∧
    (t.seek_time pos).1.play_time = t.play_time ∧
    t.play.play_time = t.play_time ∧
    t.pause.play_time = t.play_time ∧
    t.stop.play_time = t.play_time ∧
    (t.set_loops l).1.play_time = t.play_time ∧
    t.do_loop.2.play_time = t.play_time ∧
    t.make_playable.play_time = t.play_time := by
  refine ⟨?_, ?_, ?_, rfl, rfl, rfl, ?_, ?_, rfl⟩
  · induction n generalizing t with
    | zero => simp [Track.stepFrames]
    | succ k ih =>
        rw [Track.stepFrames, ih]
        simp [Track.step_frame, Nat.succ_mul]
        ring
  · induction n generalizing t with
    | zero => simp [Track.stepFrames]
    | succ k ih =>
        rw [Track.stepFrames, ih]
        simp [Track.step_frame, Nat.succ_mul]
        ring
  · unfold Track.seek_time
    cases t.source.seek_time pos <;> simp
  · unfold Track.set_loops
    by_cases h : t.source.is_seekable <;> simp [h]
  · unfold Track.do_loop
    rcases t.loops with _ | n
    · rfl
    · cases n <;> rfl

/-- C9: `create_player_with_uuid` yields a track and a handle whose
identifiers both equal the supplied uuid, the track's retained handle
is that same handle, and `create_player` is exactly
`create_player_with_uuid` at the freshly generated identifier. -/
theorem create_player_uuid_spec (source : Input) (uuid : Nat) :
    (create_player_with_uuid source uuid).1.uuid = uuid ∧
    (create_player_with_uuid source uuid).2.uuid = uuid ∧
    (create_player_with_uuid source uuid).1.handle
      = (create_player_with_uuid source uuid).2 ∧
    (∀ fresh : Nat, create_player fresh source = create_player_with_uuid source fresh) :=
  ⟨rfl, rfl, rfl, fun _ => rfl⟩

/-- C10: a track fresh from `new_raw` (and hence from
`create_player_with_uuid` / `create_player`) has volume `1.0`, zero
`position` and `play_time`, loop state `Finite 0`, the default
`PlayMode`, and a present local event store; its first `do_loop`
denies continuation, so it does not loop by default. -/
theorem new_raw_defaults (source : Input) (handle : TrackHandle) (uuid : Nat) :
    (Track.new_raw source handle).volume = 1.0 ∧
    (Track.new_raw source handle).position = 0 ∧
    (Track.new_raw source handle).play_time = 0 ∧
    (Track.new_raw source handle).loops = .Finite 0 ∧
    (Track.new_raw source handle).playing = PlayMode.default ∧
    (Track.new_raw source handle).events = some EventStore.new_local ∧
    (Track.new_raw source handle).do_loop.1 = false ∧
    (create_player_with_uuid source uuid).1
      = Track.new_raw source (create_player_with_uuid source uuid).2 :=
  ⟨rfl, rfl, rfl, rfl, rfl, rfl, rfl, rfl⟩

theorem Track.process_commands_nil (t : Track) (i : Nat) (d : Bool) :
    t.process_commands i ⟨[], d⟩ = ⟨t, [], []⟩ := by
  rw [Track.process_commands]
  simp [CommandQueue.try_recv]

theorem Track.process_commands_cons (t : Track) (i : Nat) (c : TrackCommand)
    (cs : List TrackCommand) (d : Bool) :
    t.process_commands i ⟨c :: cs, d⟩ =
      (let step := t.applyCommand i c
       let tail := step.1.process_commands i ⟨cs, d⟩
       ⟨tail.track, step.2.1 ++ tail.notes, step.2.2 ++ tail.replies⟩) := by
  rw [Track.process_commands]
  simp [CommandQueue.try_recv]

/-- C6: `process_commands` drains every pending command in dequeue
order (it equals the reference fold `drainAll` over the pending list),
for a connected and for a disconnected queue alike — so an empty queue
and a dead-senders queue both just end the drain, and the result
carries no error component. -/
theorem process_commands_drains (t : Track) (i : Nat)
    (cmds : List TrackCommand) (d : Bool) :
    t.process_commands i ⟨cmds, d⟩ = t.drainAll i cmds := by
  induction cmds generalizing t with
  | nil => rw [Track.process_commands_nil]; rfl
  | cons c cs ih =>
      rw [Track.process_commands_cons]
      simp only [Track.drainAll, ih]

/-- C7: each dequeued command emits at most one interconnect
notification; `Seek` notifies the resolved `Position` exactly when the
source resolves the seek; `Loop` notifies the new `Loops` exactly when
the source is seekable; `Request` emits no notification and sends the
state snapshot on its private reply channel; `MakePlayable` emits
nothing. -/
theorem applyCommand_notifications (t : Track) (i : Nat) (cmd : TrackCommand) :
    (t.applyCommand i cmd).2.1.length ≤ 1 ∧
    (∀ pos d : Nat, cmd = .Seek pos → t.source.seek_time pos = some d →
      (t.applyCommand i cmd).2.1 = [.ChangeState i (.Position d)]) ∧
    (∀ pos : Nat, cmd = .Seek pos → t.source.seek_time pos = none →
      (t.applyCommand i cmd).2.1 = []) ∧
    (∀ l : LoopState, cmd = .Loop l → t.source.is_seekable = true →
      (t.applyCommand i cmd).2.1 = [.ChangeState i (.Loops l true)]) ∧
    (∀ l : LoopState, cmd = .Loop l → t.source.is_seekable = false →
      (t.applyCommand i cmd).2.1 = []) ∧
    (∀ tx : Nat, cmd = .Request tx →
      t.applyCommand i cmd = (t, [], [(tx, t.state)])) ∧
    (cmd = .MakePlayable → (t.applyCommand i cmd).2.1 = []) := by
  refine ⟨?_, ?_, ?_, ?_, ?_, ?_, ?_⟩
  · cases cmd with
    | Seek time =>
        unfold Track.applyCommand Track.seek_time
        rcases h : t.source.seek_time time with _ | d <;> simp [h]
    | Loop l =>
        unfold Track.applyCommand Track.set_loops
        by_cases h : t.source.is_seekable <;> simp [h]
    | _ => simp [Track.applyCommand]
  · intro pos d hc h; subst hc
    simp [Track.applyCommand, Track.seek_time, h]
  · intro pos hc h; subst hc
    simp [Track.applyCommand, Track.seek_time, h]
  · intro l hc h; subst hc
    simp [Track.applyCommand, Track.set_loops, h]
  · intro l hc h; subst hc
    simp [Track.applyCommand, Track.set_loops, h]
  · intro tx hc; subst hc; rfl
  · intro hc; subst hc; rfl

/-- C7 witness: the notification discipline evaluated on concrete
commands against the sample tracks. -/
theorem applyCommand_notifications_witness :
    (sampleTrack.applyCommand 2 (.Seek 9)).2.1
      = [.ChangeState 2 (.Position 9)] ∧
    (sampleTrackNoSeek.applyCommand 2 (.Seek 9)).2.1 = [] ∧
    (sampleTrack.applyCommand 2 (.Loop .Infinite)).2.1
      = [.ChangeState 2 (.Loops .Infinite true)] ∧
    (sampleTrackNoSeek.applyCommand 2 (.Loop .Infinite)).2.1 = [] ∧
    (sampleTrack.applyCommand 2 (.Request 5)
      = (sampleTrack, [], [(5, sampleTrack.state)])) ∧
    (sampleTrack.applyCommand 2 .MakePlayable).2.1 = [] :=
  ⟨(applyCommand_notifications sampleTrack 2 (.Seek 9)).2.1 9 9 rfl rfl,
   (applyCommand_notifications sampleTrackNoSeek 2 (.Seek 9)).2.2.1 9 rfl rfl,
   (applyCommand_notifications sampleTrack 2 (.Loop .Infinite)).2.2.2.1 .Infinite rfl rfl,
   (applyCommand_notifications sampleTrackNoSeek 2 (.Loop .Infinite)).2.2.2.2.1 .Infinite rfl rfl,
   (applyCommand_notifications sampleTrack 2 (.Request 5)).2.2.2.2.2.1 5 rfl,
   (applyCommand_notifications sampleTrack 2 .MakePlayable).2.2.2.2.2.2 rfl⟩

end Songbird
